import Mathlib

/-!
Shallow embedding of the `request_cache` crate (src/lib.rs): a lookaside cache
for HTTP requests backed by a SQLite table
`requests (request TEXT, method TEXT, response TEXT, expires INTEGER)`.

Modelling choices:
* The table is a `List Row` in rowid (insertion) order.
* The lookup query
  `SELECT * FROM requests WHERE request = ?1 AND method = ?2 AND expires > ?3
   ORDER BY expires DESC LIMIT 1`
  is modelled by filtering the list and taking `List.argmax Row.expires`, which
  returns the earliest row among those with maximal `expires` (rowid order on
  ties, matching a SQLite full-table scan).
* `rusqlite`'s `query_row` returns `Err(QueryReturnedNoRows)` when no row
  matches; any other storage failure is a second error constructor.  A failed
  or unavailable backing store is modelled by `none : Option (List Row)`.
* The HTTP transport is a function `HttpRequest → Option String`; `none` models
  a transport-level failure, on which the Rust code calls `.unwrap()` and
  panics — modelled by the `FetchOutcome.panicked` constructor carrying the
  table state at the moment of the panic.
* The two `SystemTime::now()` reads inside one `request` call (one in
  `get_record`, one in `make_request`) are separate parameters `tGet`/`tNet`.
-/

namespace RequestCache

/-- The `Record` struct of src/lib.rs. -/
structure Record where
  request : String
  method : String
  response : String
  expires : Int
  cached : Option Bool
deriving DecidableEq

/-- One row of the `requests` table, fields in declared column order:
`CREATE TABLE IF NOT EXISTS requests (request TEXT, method TEXT, response TEXT,
expires INTEGER)`. -/
structure Row where
  request : String
  method : String
  response : String
  expires : Int
deriving DecidableEq

/-- The request handed to the HTTP transport: URL plus the wire verb. -/
structure HttpRequest where
  url : String
  verb : String
deriving DecidableEq

/-- Outcome of `make_request` / `request`: a `Record` together with the updated
table, or a panic (an `unwrap` on a transport failure) carrying the table state
unchanged at the moment of the panic. -/
inductive FetchOutcome where
  | ok : Record → List Row → FetchOutcome
  | panicked : List Row → FetchOutcome
deriving DecidableEq

/-- The condition `request = ?1 AND method = ?2` shared by the lookup and delete
queries: exact string equality on both identity columns. -/
def matchesIdentity (url method : String) (r : Row) : Bool :=
  r.request == url && r.method == method

/-- Rows of the table whose identity columns equal `(url, method)` exactly. -/
def rowsFor (db : List Row) (url method : String) : List Row :=
  db.filter (matchesIdentity url method)

/-- Rows satisfying `request = ?1 AND method = ?2 AND expires > ?3`. -/
def liveRows (db : List Row) (url method : String) (now : Int) : List Row :=
  db.filter fun r => matchesIdentity url method r && decide (now < r.expires)

/-- The row selected by `ORDER BY expires DESC LIMIT 1` over the live rows:
the row with the largest `expires`, ties resolved to the earliest row in rowid
(insertion) order. -/
def selectLive (db : List Row) (url method : String) (now : Int) : Option Row :=
  (liveRows db url method now).argmax fun r => r.expires

/-- Errors of the modelled `rusqlite` layer: `QueryReturnedNoRows` on a clean
miss, or any other storage failure. -/
inductive SqlError where
  | queryReturnedNoRows
  | storageFailure
deriving DecidableEq

/-- The `conn.query_row(query, params![url, method, current_time], ...)` call of
`get_record`: a clean miss yields `Err(QueryReturnedNoRows)`; an unavailable or
failing store (`store = none`) yields a storage error. -/
def query_row_live (store : Option (List Row)) (url method : String) (now : Int) :
    Except SqlError Row :=
  match store with
  | none => .error .storageFailure
  | some db =>
    match selectLive db url method now with
    | none => .error .queryReturnedNoRows
    | some r => .ok r

/-- The row-to-Record mapper inside `get_record`:
`method: row.get(0)?, request: row.get(1)?, response: row.get(2)?,
expires: row.get(3)?, cached: Some(true)`.  Columns 0 and 1 of the table are
`request` and `method` respectively, so this reads the `request` column into
the `method` field and the `method` column into the `request` field. -/
def decodeRow (r : Row) : Record :=
  { method := r.request, request := r.method, response := r.response,
    expires := r.expires, cached := some true }

/-- Rust `get_record` including the trailing `.ok()`, over a possibly failed
store: every error, storage failure included, becomes `none`. -/
def get_record_result (store : Option (List Row)) (url method : String)
    (now : Int) : Option Record :=
  ((query_row_live store url method now).map decodeRow).toOption

/-- Rust `get_record` on a healthy store. -/
def get_record (db : List Row) (url method : String) (now : Int) : Option Record :=
  get_record_result (some db) url method now

/-- The row inserted by `INSERT INTO requests VALUES (?1, ?2, ?3, ?4)` with
params `[record.request, record.method, record.response, record.expires]`. -/
def rowOf (rec : Record) : Row :=
  { request := rec.request, method := rec.method, response := rec.response,
    expires := rec.expires }

/-- Rust `insert_record`: `DELETE FROM requests WHERE request = ?1 AND
method = ?2`, then `INSERT INTO requests VALUES (?1, ?2, ?3, ?4)`. -/
def insert_record (db : List Row) (rec : Record) : List Row :=
  (db.filter fun r => !(matchesIdentity rec.request rec.method r)) ++ [rowOf rec]

/-- The wire request `make_request` issues: `client.get(url)` — the verb is the
constant `"GET"`; the `method` argument of `make_request` is not consulted for
the wire call. -/
def sentRequest (url : String) : HttpRequest :=
  { url := url, verb := "GET" }

/-- Rust `make_request`: issue the wire request, `.unwrap()` the transport
result (panic on failure), build the `Record` with
`expires = now + timeout` and `cached = Some(false)`, store it via
`insert_record`, and return it. -/
def make_request (db : List Row) (url method : String) (timeout : Int)
    (now : Int) (transport : HttpRequest → Option String) : FetchOutcome :=
  match transport (sentRequest url) with
  | none => .panicked db
  | some response =>
    let record : Record :=
      { request := url, method := method, response := response,
        expires := now + timeout, cached := some false }
    .ok record (insert_record db record)

/-- Rust `request`: if `force_refresh.unwrap_or(false)` go straight to
`make_request`; otherwise consult `get_record` and fall back to `make_request`
on a miss.  `tGet` is the clock read inside `get_record`, `tNet` the one inside
`make_request`. -/
def request (db : List Row) (url method : String) (timeout : Int)
    (force_refresh : Option Bool) (tGet tNet : Int)
    (transport : HttpRequest → Option String) : FetchOutcome :=
  if force_refresh.getD false then
    make_request db url method timeout tNet transport
  else
    match get_record db url method tGet with
    | some x => .ok x db
    | none => make_request db url method timeout tNet transport

/-- Number of rows stored for an identity (the tests' `SELECT COUNT(*)` query
restricted to the identity). -/
def countIdentity (db : List Row) (url method : String) : Nat :=
  (rowsFor db url method).length

/-- One fetch call in a sequence against a fixed identity: its ttl,
`force_refresh` flag, call time, and the body the transport delivers. -/
structure FetchCall where
  ttl : Int
  force : Option Bool
  t : Int
  body : String

/-- Run one `request` call for identity `(url, method)` and keep the resulting
table. -/
def stepFetch (url method : String) (db : List Row) (c : FetchCall) : List Row :=
  match request db url method c.ttl c.force c.t c.t (fun _ => some c.body) with
  | .ok _ db2 => db2
  | .panicked dbp => dbp

/-! Helper lemmas shared by the claim theorems. -/

/-- Membership in the live-row filter, unfolded. -/
theorem mem_liveRows {db : List Row} {url method : String} {now : Int} {r : Row} :
    r ∈ liveRows db url method now ↔
      r ∈ db ∧ r.request = url ∧ r.method = method ∧ now < r.expires := by
  simp [liveRows, List.mem_filter, matchesIdentity, Bool.and_eq_true, and_assoc]

/-- A successful `selectLive` picks a member of the live rows. -/
theorem selectLive_mem {db : List Row} {url method : String} {now : Int} {r : Row}
    (h : selectLive db url method now = some r) :
    r ∈ liveRows db url method now :=
  List.argmax_mem h

/-- After an `insert_record`, the rows for the inserted identity are exactly the
single freshly inserted row. -/
theorem rowsFor_insert_self (db : List Row) (rec : Record) :
    rowsFor (insert_record db rec) rec.request rec.method = [rowOf rec] := by
  unfold rowsFor insert_record
  rw [List.filter_append, List.filter_filter]
  have h1 : List.filter
      (fun a => matchesIdentity rec.request rec.method a &&
        !matchesIdentity rec.request rec.method a) db = [] := by
    simp [Bool.and_not_self]
  have h2 : List.filter (matchesIdentity rec.request rec.method) [rowOf rec]
      = [rowOf rec] := by
    simp [matchesIdentity, rowOf]
  rw [h1, h2, List.nil_append]

/-- `insert_record` leaves the rows of every other identity untouched. -/
theorem rowsFor_insert_other (db : List Row) (rec : Record) (u m : String)
    (hne : ¬(u = rec.request ∧ m = rec.method)) :
    rowsFor (insert_record db rec) u m = rowsFor db u m := by
  unfold rowsFor insert_record
  rw [List.filter_append, List.filter_filter]
  have h1 : List.filter
      (fun a => matchesIdentity u m a && !matchesIdentity rec.request rec.method a) db
      = List.filter (matchesIdentity u m) db := by
    apply List.filter_congr
    intro a _
    cases hB : matchesIdentity u m a with
    | false => simp
    | true =>
      simp only [matchesIdentity, Bool.and_eq_true, beq_iff_eq] at hB
      have hA : matchesIdentity rec.request rec.method a = false := by
        cases hA : matchesIdentity rec.request rec.method a with
        | false => rfl
        | true =>
          simp only [matchesIdentity, Bool.and_eq_true, beq_iff_eq] at hA
          exact absurd ⟨hB.1.symm.trans hA.1, hB.2.symm.trans hA.2⟩ hne
      simp [hA]
  have h2 : List.filter (matchesIdentity u m) [rowOf rec] = [] := by
    have : matchesIdentity u m (rowOf rec) = false := by
      cases hA : matchesIdentity u m (rowOf rec) with
      | false => rfl
      | true =>
        simp only [matchesIdentity, rowOf, Bool.and_eq_true, beq_iff_eq] at hA
        exact absurd ⟨hA.1.symm, hA.2.symm⟩ hne
    simp [List.filter, this]
  rw [h1, h2, List.append_nil]

/-- `insert_record` always leaves exactly one row for the inserted identity. -/
theorem countIdentity_insert_self (db : List Row) (rec : Record) :
    countIdentity (insert_record db rec) rec.request rec.method = 1 := by
  unfold countIdentity
  rw [rowsFor_insert_self]
  rfl

/-! Claim theorems. -/

/-- Claim C1: the spec says the entry returned by a successful cache lookup has
its url field equal to the requested url and its method field equal to the
requested method.  The code violates this: `get_record`'s row mapper reads
column 0 (the `request` column) into the `method` field and column 1 (the
`method` column) into the `request` field, so the record stored for
(url = "http://example.com", method = "GET") decodes back with the two
identity fields swapped. -/
theorem c1_decode_swaps_identity_fields :
    get_record
        (insert_record []
          { request := "http://example.com", method := "GET", response := "body",
            expires := 100, cached := some false })
        "http://example.com" "GET" 0
      = some { request := "GET", method := "http://example.com", response := "body",
               expires := 100, cached := some true }
      ∧ ("GET" : String) ≠ "http://example.com" :=
  ⟨rfl, by decide⟩

/-- Claim C2: the spec says the HTTP request performed by `make_request` uses
the caller-supplied method.  The code violates this: the wire call is the fixed
`client.get(url)`, so a transport that echoes the verb it receives shows that a
`make_request` with method "POST" still goes out as a GET. -/
theorem c2_wire_verb_is_always_get :
    make_request [] "http://example.com" "POST" 10 0 (fun req => some req.verb)
      = .ok
          { request := "http://example.com", method := "POST", response := "GET",
            expires := 10, cached := some false }
          [{ request := "http://example.com", method := "POST", response := "GET",
             expires := 10 }]
      ∧ ("GET" : String) ≠ "POST" :=
  ⟨rfl, by decide⟩

/-- Claim C3: for an identity never seen before and a positive ttl, a first
fetch returns an entry with `cached = Some(false)`; an immediate second fetch
at the same wall-clock second with `force_refresh` unset returns an entry with
`cached = Some(true)` whose body is identical to the first response, leaves the
table untouched, and makes no network call — the second call's result is
independent of its transport (`transport2` is arbitrary, e.g. always failing). -/
theorem c3_miss_then_hit (url method body : String) (ttl t : Int) (httl : 0 < ttl)
    (transport transport2 : HttpRequest → Option String)
    (htr : transport (sentRequest url) = some body) :
    ∃ r1 db1 r2,
      request [] url method ttl none t t transport = .ok r1 db1 ∧
      r1.cached = some false ∧ r1.response = body ∧
      request db1 url method ttl none t t transport2 = .ok r2 db1 ∧
      r2.cached = some true ∧ r2.response = r1.response := by
  have hlt : t < t + ttl := by omega
  refine ⟨{ request := url, method := method, response := body,
            expires := t + ttl, cached := some false },
          [{ request := url, method := method, response := body, expires := t + ttl }],
          { request := method, method := url, response := body,
            expires := t + ttl, cached := some true },
          ?_, rfl, rfl, ?_, rfl, rfl⟩
  · simp [request, get_record, get_record_result, query_row_live, selectLive,
          liveRows, make_request, htr, insert_record, rowOf, Except.map,
          Except.toOption]
  · simp [request, get_record, get_record_result, query_row_live, selectLive,
          liveRows, matchesIdentity, decodeRow, hlt, Except.map, Except.toOption]

/-- Witness for C3 at a concrete input: the second call's transport always
fails, so the hit demonstrably makes no network call. -/
theorem c3_miss_then_hit_witness :
    ∃ r1 db1 r2,
      request [] "http://example.com" "GET" 10000 none 0 0 (fun _ => some "hello")
        = .ok r1 db1 ∧
      r1.cached = some false ∧ r1.response = "hello" ∧
      request db1 "http://example.com" "GET" 10000 none 0 0 (fun _ => none)
        = .ok r2 db1 ∧
      r2.cached = some true ∧ r2.response = r1.response :=
  c3_miss_then_hit "http://example.com" "GET" "hello" 10000 0 (by decide) _ _ rfl

/-- Claim C4: with `force_refresh = true`, the lookup is skipped (the result
does not depend on the prior table contents beyond the rewrite), the returned
entry has `cached = Some(false)`, and the stored rows for the identity become
exactly the single freshly fetched row, whatever was there before. -/
theorem c4_force_refresh_bypass (db : List Row) (url method : String)
    (ttl tGet tNet : Int) (transport : HttpRequest → Option String) (body : String)
    (htr : transport (sentRequest url) = some body) :
    ∃ rec, request db url method ttl (some true) tGet tNet transport
        = .ok rec (insert_record db rec) ∧
      rec.cached = some false ∧ rec.response = body ∧
      rec.request = url ∧ rec.method = method ∧
      rowsFor (insert_record db rec) url method = [rowOf rec] ∧
      countIdentity (insert_record db rec) url method = 1 := by
  refine ⟨{ request := url, method := method, response := body,
            expires := tNet + ttl, cached := some false },
          ?_, rfl, rfl, rfl, rfl, ?_, ?_⟩
  · simp [request, make_request, htr]
  · exact rowsFor_insert_self db _
  · exact countIdentity_insert_self db _

/-- Witness for C4 at a concrete input with a pre-existing live row for the
same identity, which gets overwritten. -/
theorem c4_force_refresh_bypass_witness :
    ∃ rec, request [⟨"http://example.com", "GET", "old", 99⟩] "http://example.com"
          "GET" 10 (some true) 0 0 (fun _ => some "new")
        = .ok rec (insert_record [⟨"http://example.com", "GET", "old", 99⟩] rec) ∧
      rec.cached = some false ∧ rec.response = "new" ∧
      rec.request = "http://example.com" ∧ rec.method = "GET" ∧
      rowsFor (insert_record [⟨"http://example.com", "GET", "old", 99⟩] rec)
          "http://example.com" "GET" = [rowOf rec] ∧
      countIdentity (insert_record [⟨"http://example.com", "GET", "old", 99⟩] rec)
          "http://example.com" "GET" = 1 :=
  c4_force_refresh_bypass [⟨"http://example.com", "GET", "old", 99⟩]
    "http://example.com" "GET" 10 0 0 (fun _ => some "new") "new" rfl

/-- Claim C5: a successful lookup returns a stored row whose identity columns
match exactly and whose `expires` is strictly greater than `now`; among all
live candidate rows the returned one has the largest `expires`; and when
several candidates share that largest `expires`, the winner is deterministic:
it is the earliest such row in rowid (insertion) order, expressed by index
minimality over the live candidates. -/
theorem c5_find_live_correct (db : List Row) (url method : String) (now : Int)
    (row : Row) (h : selectLive db url method now = some row) :
    row ∈ db ∧ row.request = url ∧ row.method = method ∧ now < row.expires ∧
    (∀ r ∈ db, r.request = url → r.method = method → now < r.expires →
        r.expires ≤ row.expires) ∧
    (∀ r ∈ liveRows db url method now, row.expires ≤ r.expires →
        (liveRows db url method now).indexOf row
          ≤ (liveRows db url method now).indexOf r) := by
  rw [selectLive, List.argmax_eq_some_iff] at h
  obtain ⟨hmem, hmax, htie⟩ := h
  obtain ⟨hdb, hreq, hmeth, hexp⟩ := mem_liveRows.mp hmem
  refine ⟨hdb, hreq, hmeth, hexp, ?_, ?_⟩
  · intro r hr hru hrm hre
    exact hmax r (mem_liveRows.mpr ⟨hr, hru, hrm, hre⟩)
  · intro r hr hle
    exact htie r hr hle

/-- Witness for C5: a two-row table where both rows are live and share the
maximal expiry; the earlier row wins. -/
theorem c5_find_live_correct_witness :
    (⟨"u", "GET", "b1", 5⟩ : Row) ∈ ([⟨"u", "GET", "b1", 5⟩, ⟨"u", "GET", "b2", 5⟩] : List Row) ∧
    ("u" : String) = "u" ∧ ("GET" : String) = "GET" ∧ (0 : Int) < 5 ∧
    (∀ r ∈ ([⟨"u", "GET", "b1", 5⟩, ⟨"u", "GET", "b2", 5⟩] : List Row),
        r.request = "u" → r.method = "GET" → (0 : Int) < r.expires →
        r.expires ≤ 5) ∧
    (∀ r ∈ liveRows [⟨"u", "GET", "b1", 5⟩, ⟨"u", "GET", "b2", 5⟩] "u" "GET" 0,
        (5 : Int) ≤ r.expires →
        (liveRows [⟨"u", "GET", "b1", 5⟩, ⟨"u", "GET", "b2", 5⟩] "u" "GET" 0).indexOf
            ⟨"u", "GET", "b1", 5⟩
          ≤ (liveRows [⟨"u", "GET", "b1", 5⟩, ⟨"u", "GET", "b2", 5⟩] "u" "GET" 0).indexOf r) :=
  c5_find_live_correct [⟨"u", "GET", "b1", 5⟩, ⟨"u", "GET", "b2", 5⟩] "u" "GET" 0
    ⟨"u", "GET", "b1", 5⟩ (by decide)

/-- Claim C6: a successful network fetch returns a record with
`expires = now + ttl` whose identity and body fields are the requested ones,
and the row appended to the table carries field-for-field the same data as the
returned record. -/
theorem c6_expiry_and_store (db : List Row) (url method body : String)
    (ttl now : Int) (transport : HttpRequest → Option String)
    (htr : transport (sentRequest url) = some body) :
    ∃ rec, make_request db url method ttl now transport
        = .ok rec (insert_record db rec) ∧
      rec.expires = now + ttl ∧ rec.request = url ∧ rec.method = method ∧
      rec.response = body ∧ rec.cached = some false ∧
      (insert_record db rec).getLast? = some
        { request := rec.request, method := rec.method, response := rec.response,
          expires := rec.expires } := by
  refine ⟨{ request := url, method := method, response := body,
            expires := now + ttl, cached := some false },
          ?_, rfl, rfl, rfl, rfl, rfl, ?_⟩
  · simp [make_request, htr]
  · simp [insert_record, rowOf, List.getLast?_concat]

/-- Witness for C6 at a concrete input. -/
theorem c6_expiry_and_store_witness :
    ∃ rec, make_request [] "http://example.com" "GET" 10 7 (fun _ => some "hello")
        = .ok rec (insert_record [] rec) ∧
      rec.expires = 7 + 10 ∧ rec.request = "http://example.com" ∧
      rec.method = "GET" ∧ rec.response = "hello" ∧ rec.cached = some false ∧
      (insert_record [] rec).getLast? = some
        { request := rec.request, method := rec.method, response := rec.response,
          expires := rec.expires } :=
  c6_expiry_and_store [] "http://example.com" "GET" "hello" 10 7
    (fun _ => some "hello") rfl

/-- One fetch call with a succeeding transport keeps a one-row identity at
exactly one row: a hit leaves the table untouched, a miss or forced refresh
goes through `insert_record`. -/
theorem stepFetch_preserves (url method : String) (c : FetchCall) (db : List Row)
    (h : countIdentity db url method = 1) :
    countIdentity (stepFetch url method db c) url method = 1 := by
  unfold stepFetch request
  cases hf : c.force.getD false with
  | true =>
    simp only [hf, if_true, make_request, sentRequest]
    exact countIdentity_insert_self db _
  | false =>
    cases hg : get_record db url method c.t with
    | some x => simpa using h
    | none =>
      simp only [Bool.false_eq_true, if_false, make_request, sentRequest]
      exact countIdentity_insert_self db _

/-- The first fetch call from an empty table leaves exactly one row for the
identity. -/
theorem stepFetch_from_nil (url method : String) (c : FetchCall) :
    countIdentity (stepFetch url method [] c) url method = 1 := by
  unfold stepFetch request
  cases hf : c.force.getD false with
  | true =>
    simp only [hf, if_true, make_request, sentRequest]
    exact countIdentity_insert_self [] _
  | false =>
    have hg : get_record [] url method c.t = none := rfl
    simp only [hg, Bool.false_eq_true, if_false, make_request, sentRequest]
    exact countIdentity_insert_self [] _

/-- Folding further fetch calls preserves the one-row-per-identity state. -/
theorem foldl_stepFetch (url method : String) (calls : List FetchCall)
    (db : List Row) (h : countIdentity db url method = 1) :
    countIdentity (List.foldl (stepFetch url method) db calls) url method = 1 := by
  induction calls generalizing db with
  | nil => simpa using h
  | cons c cs ih =>
    rw [List.foldl_cons]
    exact ih _ (stepFetch_preserves url method c db h)

/-- Claim C7: every `insert_record` deletes all rows of the record's identity
and inserts exactly one, so the identity ends with exactly one row; hence after
any nonempty sequence of completed fetch calls against one identity, exactly
one row for that identity exists in storage. -/
theorem c7_single_row_invariant :
    (∀ (db : List Row) (rec : Record),
        countIdentity (insert_record db rec) rec.request rec.method = 1) ∧
    ∀ (url method : String) (calls : List FetchCall), calls ≠ [] →
      countIdentity (List.foldl (stepFetch url method) [] calls) url method = 1 := by
  refine ⟨countIdentity_insert_self, ?_⟩
  intro url method calls hne
  match calls with
  | [] => exact absurd rfl hne
  | c :: cs =>
    rw [List.foldl_cons]
    exact foldl_stepFetch url method cs _ (stepFetch_from_nil url method c)

/-- Witness for C7: an insert over a table already holding two rows for the
identity, and a three-call fetch sequence (miss, hit, forced refresh). -/
theorem c7_single_row_invariant_witness :
    countIdentity
        (insert_record [⟨"u", "GET", "b1", 5⟩, ⟨"u", "GET", "b2", 9⟩]
          { request := "u", method := "GET", response := "b3", expires := 12,
            cached := some false }) "u" "GET" = 1 ∧
    countIdentity
        (List.foldl (stepFetch "u" "GET") []
          [⟨10, none, 0, "x"⟩, ⟨10, none, 0, "y"⟩, ⟨10, some true, 0, "z"⟩])
        "u" "GET" = 1 :=
  ⟨c7_single_row_invariant.1 [⟨"u", "GET", "b1", 5⟩, ⟨"u", "GET", "b2", 9⟩] _,
   c7_single_row_invariant.2 "u" "GET"
     [⟨10, none, 0, "x"⟩, ⟨10, none, 0, "y"⟩, ⟨10, some true, 0, "z"⟩]
     (List.cons_ne_nil _ _)⟩

/-- Claim C8: for distinct identities A and B (exact string comparison on url
and method, no normalization), a lookup for A only ever returns a row whose
identity columns are exactly A's — never B's — and an `insert_record` for A
leaves the stored rows of B untouched, in content and order. -/
theorem c8_identity_independence (db : List Row) (urlA methodA urlB methodB : String)
    (now : Int) (hne : ¬(urlA = urlB ∧ methodA = methodB)) :
    (∀ row, selectLive db urlA methodA now = some row →
        row.request = urlA ∧ row.method = methodA ∧
        ¬(row.request = urlB ∧ row.method = methodB)) ∧
    ∀ rec : Record, rec.request = urlA → rec.method = methodA →
      rowsFor (insert_record db rec) urlB methodB = rowsFor db urlB methodB := by
  constructor
  · intro row h
    obtain ⟨_, hreq, hmeth, _⟩ := mem_liveRows.mp (selectLive_mem h)
    refine ⟨hreq, hmeth, ?_⟩
    rintro ⟨hbu, hbm⟩
    exact hne ⟨hreq.symm.trans hbu, hmeth.symm.trans hbm⟩
  · intro rec hru hrm
    apply rowsFor_insert_other
    rintro ⟨hbu, hbm⟩
    exact hne ⟨(hbu.trans hru).symm, (hbm.trans hrm).symm⟩

/-- Witness for C8: identity A = ("http://example.com/", "GET") differs from
B = ("http://example.com", "GET") only by a trailing slash; A's lookup over a
table holding a live B row misses B, and inserting for A preserves B's row. -/
theorem c8_identity_independence_witness :
    (∀ row, selectLive [⟨"http://example.com", "GET", "b", 9⟩] "http://example.com/"
          "GET" 0 = some row →
        row.request = "http://example.com/" ∧ row.method = "GET" ∧
        ¬(row.request = "http://example.com" ∧ row.method = "GET")) ∧
    ∀ rec : Record, rec.request = "http://example.com/" → rec.method = "GET" →
      rowsFor (insert_record [⟨"http://example.com", "GET", "b", 9⟩] rec)
          "http://example.com" "GET"
        = rowsFor [⟨"http://example.com", "GET", "b", 9⟩] "http://example.com" "GET" :=
  c8_identity_independence [⟨"http://example.com", "GET", "b", 9⟩]
    "http://example.com/" "GET" "http://example.com" "GET" 0 (by decide)

/-- Claim C9 as amended: on a transport failure the Rust code hits `.unwrap()`
and panics — there is no typed `FetchError` channel; the transport is invoked
once (no retry, by construction of `make_request`), and nothing is written to
storage: the table state carried out at the panic is the unchanged input
table. -/
theorem c9_transport_failure_panics (db : List Row) (url method : String)
    (ttl now : Int) (transport : HttpRequest → Option String)
    (htr : transport (sentRequest url) = none) :
    make_request db url method ttl now transport = .panicked db := by
  simp [make_request, htr]

/-- Witness for C9's amended claim at a concrete input. -/
theorem c9_transport_failure_panics_witness :
    make_request [⟨"u", "GET", "b", 9⟩] "http://example.com" "GET" 1 0 (fun _ => none)
      = .panicked [⟨"u", "GET", "b", 9⟩] :=
  c9_transport_failure_panics [⟨"u", "GET", "b", 9⟩] "http://example.com" "GET" 1 0
    (fun _ => none) rfl

/-- Counterexample to C9 as stated: with a failing transport the outcome of
`make_request` is the panic outcome, not a returned typed error — in
particular no `Record` at all reaches the caller, and the table is unchanged. -/
theorem c9_transport_failure_counterexample :
    make_request [] "http://example.com" "GET" 1 0 (fun _ => none) = .panicked [] ∧
    ∀ rec db2, make_request [] "http://example.com" "GET" 1 0 (fun _ => none)
      ≠ .ok rec db2 := by
  refine ⟨rfl, ?_⟩
  intro rec db2 h
  exact FetchOutcome.noConfusion h

/-- Claim C10 as amended: `get_record` ends in `.ok()`, so every error of the
storage layer — `QueryReturnedNoRows` on a clean miss, but equally a genuine
storage failure — is mapped to `None`; a storage failure is treated exactly
like a miss instead of being surfaced as a distinct error. -/
theorem c10_storage_error_swallowed (store : Option (List Row))
    (url method : String) (now : Int) (e : SqlError)
    (h : query_row_live store url method now = .error e) :
    get_record_result store url method now = none := by
  simp [get_record_result, h, Except.map, Except.toOption]

/-- Witness for C10's amended claim: an unavailable store yields `None`. -/
theorem c10_storage_error_swallowed_witness :
    get_record_result none "http://example.com" "GET" 0 = none :=
  c10_storage_error_swallowed none "http://example.com" "GET" 0 .storageFailure rfl

/-- Counterexample to C10 as stated: at a concrete lookup, the result on an
unavailable store (`none`, a storage failure) is identical to the result on a
healthy empty store (a clean miss) — both are `None`; no distinct storage
error reaches the caller. -/
theorem c10_miss_vs_failure_counterexample :
    get_record_result none "http://example.com" "GET" 0 = none ∧
    get_record_result (some []) "http://example.com" "GET" 0 = none ∧
    get_record_result none "http://example.com" "GET" 0
      = get_record_result (some []) "http://example.com" "GET" 0 :=
  ⟨rfl, rfl, rfl⟩

end RequestCache
